import Mathlib

/-!
# Verification of `gcal_discord_poster/utils/conf.py`

A shallow embedding of the config-store and credential-manager module of
`gcal-discord-poster`, together with proofs of the specified properties.

Conventions of the embedding:

* Python JSON-compatible values are modelled by the inductive type `Json`;
  Python `dict`s become association lists `List (String × Json)` (insertion
  ordered, unique keys being a runtime invariant of Python dicts that we carry
  as a hypothesis where needed).
* Python exceptions are modelled with `Except PyErr`; the distinct error
  classes the module can surface (`RuntimeError`, `TypeError`, OS errors,
  network errors) are the constructors of `PyErr`.
* The filesystem is a flat map from path strings to nodes (`FS`); a file node
  records the JSON document stored in it together with the indentation the
  serializer was invoked with.  The byte-level rendering performed by the
  external `json` stdlib is abstracted at value level: `json.dump(c, f,
  indent=4, sort_keys=True)` stores the document with every object's key list
  sorted (which is exactly what a reader of the emitted text recovers), and
  `json.load` returns the stored document.  Directory-tree structure is
  abstracted: each path's node is tracked independently, so `os.makedirs`'
  creation of intermediate directories is not observable.
* The external `google.oauth2.credentials.Credentials` class is modelled from
  the spec's data model (section 3): a plain record of the five credential
  fields plus an abstract expiry, with derived properties `valid` (token
  present and not expired) and `expired`, and a refresh operation that takes
  the outcome of one network transport round-trip.
-/

/-- JSON-compatible Python values (floats are out of scope; JSON numbers are
modelled as integers). Objects are insertion-ordered association lists, as
Python dicts are. -/
inductive Json where
  | null : Json
  | bool (b : Bool) : Json
  | num (n : Int) : Json
  | str (s : String) : Json
  | arr (xs : List Json) : Json
  | obj (fields : List (String × Json)) : Json
  deriving Repr, BEq

/-- A Python dict with string keys and JSON values. -/
abbrev PyDict := List (String × Json)

/-- Python `d[k]` lookup in a string-keyed map (first matching entry; Python dicts
hold at most one entry per key). Also used for the path-keyed filesystem
model. -/
def dictGet {α : Type} (d : List (String × α)) (k : String) : Option α :=
  match d with
  | [] => none
  | (k', v) :: rest => if k' = k then some v else dictGet rest k

/-- Python `d[k] = v` assignment on a string-keyed map: replaces the value in place
if the key is present, otherwise appends the new entry (insertion order). -/
def dictSet {α : Type} (d : List (String × α)) (k : String) (v : α) :
    List (String × α) :=
  match d with
  | [] => [(k, v)]
  | (k', v') :: rest =>
    if k' = k then (k', v) :: rest else (k', v') :: dictSet rest k v

/-- Python `k in d` membership test on a string-keyed map. -/
def dictHas {α : Type} (d : List (String × α)) (k : String) : Bool :=
  (dictGet d k).isSome

/-- The error classes this module can surface. -/
inductive PyErr where
  /-- A `RuntimeError(msg)` raised explicitly by the module. -/
  | runtimeError (msg : String) : PyErr
  /-- A `TypeError`, e.g. from calling the external constructor with a bad
  argument list. -/
  | typeError (msg : String) : PyErr
  /-- An `OSError`-class failure from a filesystem call. -/
  | osError (msg : String) : PyErr
  /-- A network/provider failure surfaced by the external OAuth library. -/
  | netError (msg : String) : PyErr
  deriving Repr, BEq, DecidableEq

/-- Python truthiness of a JSON-compatible value (`not x` in the source tests
this): `None`, `False`, `0`, `""`, `[]` and `{}` are falsy. -/
def jsonTruthy : Json → Bool
  | .null => false
  | .bool b => b
  | .num n => n != 0
  | .str s => s != ""
  | .arr xs => !xs.isEmpty
  | .obj fields => !fields.isEmpty

/-- A Python attribute value: `none` models Python `None`. A JSON `null` read
from the config becomes Python `None`. -/
def pyOfJson : Json → Option Json
  | .null => none
  | v => some v

/-- Python truthiness of an attribute value (used for
`credentials.refresh_token` in the source). -/
def pyTruthy : Option Json → Bool
  | none => false
  | some v => jsonTruthy v

/-- Modelled from the spec (section 3): the external credential object, "a
plain data record {refresh_token, access_token, client_id, client_secret,
token_uri, expiry}".  Field values are the Python attribute values; `expiry`
is an abstract timestamp owned by the external library. -/
structure Credentials where
  token : Option Json
  refresh_token : Option Json
  client_id : Option Json
  client_secret : Option Json
  token_uri : Option Json
  expiry : Option Nat
  deriving Repr, BEq

namespace Credentials

/-- Modelled from the spec (section 3): the derived `expired` property — the
credential is expired iff it carries an expiry that is not in the future. -/
def expired (c : Credentials) (now : Nat) : Bool :=
  match c.expiry with
  | none => false
  | some e => e ≤ now

/-- Modelled from the spec (section 3): the derived `valid` property — "token
present and not expired". -/
def valid (c : Credentials) (now : Nat) : Bool :=
  c.token.isSome && !c.expired now

end Credentials

/-- The exact keyword-parameter names of the external constructor that the
spec's five-field Credential Record uses. -/
def credentialKeys : List String :=
  ["refresh_token", "token", "client_id", "client_secret", "token_uri"]

/-- Modelled from the spec (sections 3 and 9): construction of the external
credential object from a stored record, `Credentials(**credentials_dict)`.
The spec's open question notes that "reconstruction could fail" when fields
beyond the three checked ones are absent: the external constructor requires
the access-token argument (`token`), while the remaining four parameters
default to `None`; a keyword that is not one of the five record fields is a
`TypeError` as well.  The abstract `expiry` the library attaches at
construction is passed in as a parameter. -/
def credentialsFromDict (d : PyDict) (expiry : Option Nat) :
    Except PyErr Credentials :=
  if ¬ d.all (fun p => p.1 ∈ credentialKeys) then
    .error (.typeError "unexpected keyword argument")
  else if ¬ dictHas d "token" then
    .error (.typeError "missing 1 required positional argument: 'token'")
  else
    .ok
      { token := (dictGet d "token").bind pyOfJson
        refresh_token := (dictGet d "refresh_token").bind pyOfJson
        client_id := (dictGet d "client_id").bind pyOfJson
        client_secret := (dictGet d "client_secret").bind pyOfJson
        token_uri := (dictGet d "token_uri").bind pyOfJson
        expiry := expiry }

/-- The data one successful token-refresh round-trip yields: a fresh access
token and its expiry. -/
structure RefreshData where
  token : Json
  expiry : Option Nat
  deriving Repr, BEq

/-- The outcome of one network transport round-trip to the token endpoint:
either fresh token data or a network/provider error. -/
abbrev Transport := Except PyErr RefreshData

/-- Modelled from the spec (section 3): `credentials.refresh(Request())` — a
refresh operation that, given the transport outcome, mutates the token (and
expiry) in place; a transport error propagates. -/
def Credentials.refresh (c : Credentials) (t : Transport) :
    Except PyErr Credentials :=
  match t with
  | .error e => .error e
  | .ok rd => .ok { c with token := some rd.token, expiry := rd.expiry }

/-- `config.get("oauth", {}).get("google", {})`: navigate to the stored
credential record.  A non-dict value at `config["oauth"]` has no `.get`
attribute and raises; a non-dict value at the `"google"` key is returned
as-is by Python, but every claim concerns dict-shaped (or absent) records, so
the embedding surfaces a `TypeError` for non-dict record values (CPython
would raise from the `in` checks for most non-dict types). -/
def getOauthGoogleRecord (config : PyDict) : Except PyErr PyDict :=
  match dictGet config "oauth" with
  | none => .ok []
  | some (.obj oauthDict) =>
    match dictGet oauthDict "google" with
    | none => .ok []
    | some (.obj googleDict) => .ok googleDict
    | some _ => .error (.typeError "credential record is not a mapping")
  | some _ => .error (.typeError "oauth entry has no attribute get")

/-- Embedding of `get_saved_google_credentials(config)` (conf.py lines
70–89).  Besides the config it takes the abstract construction expiry, the
current time and the outcome of a (potential) transport round-trip, and
returns the result paired with the number of network calls performed. -/
def get_saved_google_credentials (config : PyDict) (expiry : Option Nat)
    (now : Nat) (t : Transport) :
    Except PyErr (Option Credentials) × Nat :=
  match getOauthGoogleRecord config with
  | .error e => (.error e, 0)
  | .ok credentials_dict =>
    if !jsonTruthy (.obj credentials_dict)
        || !dictHas credentials_dict "refresh_token"
        || !dictHas credentials_dict "client_id"
        || !dictHas credentials_dict "client_secret" then
      (.ok none, 0)
    else
      match credentialsFromDict credentials_dict expiry with
      | .error e => (.error e, 0)
      | .ok credentials =>
        if !credentials.valid now then
          if credentials.expired now && pyTruthy credentials.refresh_token then
            match credentials.refresh t with
            | .error e => (.error e, 1)
            | .ok refreshed => (.ok (some refreshed), 1)
          else
            (.ok none, 0)
        else
          (.ok (some credentials), 0)

/-- Embedding of `stash_google_credentials(config, credentials)` (conf.py
lines 91–105): write the five-field record under `config["oauth"]["google"]`
and return the mutated config.  Item assignment on a non-dict value at
`config["oauth"]` raises `TypeError` in Python. -/
def stash_google_credentials (config : PyDict) (credentials : Credentials) :
    Except PyErr PyDict :=
  let config' :=
    if !dictHas config "oauth" then dictSet config "oauth" (.obj []) else config
  match dictGet config' "oauth" with
  | some (.obj oauthDict) =>
    .ok (dictSet config' "oauth" (.obj (dictSet oauthDict "google"
      (.obj [("refresh_token", (credentials.refresh_token).getD .null),
             ("token", (credentials.token).getD .null),
             ("client_id", (credentials.client_id).getD .null),
             ("client_secret", (credentials.client_secret).getD .null),
             ("token_uri", (credentials.token_uri).getD .null)]))))
  | _ => .error (.typeError "oauth entry does not support item assignment")

/-! ## Filesystem model and the Config Store -/

/-- A node of the filesystem model.  A file stores the JSON document its text
encodes together with the indentation the serializer was invoked with (the
byte-level rendering of the external `json` stdlib is abstracted at value
level; a document written with `sort_keys=True` already carries its object
keys in sorted order, which is exactly what `json.load` of the emitted text
recovers). -/
inductive FSNode where
  | file (doc : Json) (indent : Nat) : FSNode
  | dir : FSNode
  deriving Repr, BEq

/-- The filesystem: a flat map from absolute path strings to nodes.
Directory-tree structure is abstracted (each path's node is independent), so
`os.makedirs`' creation of intermediate directories is not observable here. -/
abbrev FS := List (String × FSNode)

def os_path_exists (fs : FS) (p : String) : Bool :=
  (dictGet fs p).isSome

def os_path_isdir (fs : FS) (p : String) : Bool :=
  match dictGet fs p with
  | some .dir => true
  | _ => false

def os_path_isfile (fs : FS) (p : String) : Bool :=
  match dictGet fs p with
  | some (.file _ _) => true
  | _ => false

/-- Model of the `str.startswith` test. -/
def pyStartsWith (s pre : String) : Bool :=
  pre.data.isPrefixOf s.data

/-- Model of the `str.endswith` test, via reversed character lists so that facts about
it reduce to facts about list prefixes. -/
def pyEndsWith (s suffix : String) : Bool :=
  suffix.data.reverse.isPrefixOf s.data.reverse

/-- Model of `os.path.expanduser`: substitute a leading `~` with the home directory
(the `~user` form does not occur in this code base). -/
def os_path_expanduser (home path : String) : String :=
  if pyStartsWith path "~" then home ++ path.drop 1 else path

/-- Model of `os.path.join(a, b)` for a single right operand: an absolute `b` wins;
otherwise the parts are glued with exactly one separator. -/
def os_path_join (a b : String) : String :=
  if pyStartsWith b "/" then b
  else if a = "" || pyEndsWith a "/" then a ++ b
  else a ++ "/" ++ b

/-- Model of `os.makedirs(p)`: raises `FileExistsError` if the path already exists,
otherwise creates the directory (intermediate directories are abstracted by
the flat filesystem model). -/
def os_makedirs (fs : FS) (p : String) : Except PyErr FS :=
  if os_path_exists fs p then .error (.osError "FileExistsError")
  else .ok (dictSet fs p .dir)

def CONFIG_DIR : String := "~/.config/gcal-discord-poster"

def CONFIG_FILE_NAME : String := "config.json"

/-- Embedding of `setup_config_dir()` (conf.py lines 108–118). -/
def setup_config_dir (fs : FS) (home : String) : Except PyErr FS :=
  let real_config_dir := os_path_expanduser home CONFIG_DIR
  if !os_path_exists fs real_config_dir then
    os_makedirs fs real_config_dir
  else if !os_path_isdir fs real_config_dir then
    .error (.runtimeError ("Unable to setup config dir at '" ++ CONFIG_DIR ++ "'"))
  else
    .ok fs

/-- Embedding of `get_config_path()` (conf.py lines 121–124). -/
def get_config_path (home : String) : String :=
  os_path_join (os_path_expanduser home CONFIG_DIR) CONFIG_FILE_NAME

/-- Model of `json.load(file)` for an open readable file at `p`: returns the JSON
document the file's text encodes (malformed text is out of scope; the model
stores documents, not bytes). -/
def json_load (fs : FS) (p : String) : Except PyErr Json :=
  match dictGet fs p with
  | some (.file doc _) => .ok doc
  | _ => .error (.osError "FileNotFoundError")

mutual

/-- Recursive key-sorting: the value-level effect of serializing with
`sort_keys=True` — the document recovered from the emitted text has every
object's fields in ascending key order (`sorted()` is stable, as is
`mergeSort`). -/
def sortKeysRec : Json → Json
  | .null => .null
  | .bool b => .bool b
  | .num n => .num n
  | .str s => .str s
  | .arr xs => .arr (sortKeysArr xs)
  | .obj fields =>
    .obj ((sortKeysFields fields).mergeSort (fun a b => decide (a.1 ≤ b.1)))

/-- The map of `sortKeysRec` over an array's elements. -/
def sortKeysArr : List Json → List Json
  | [] => []
  | x :: xs => sortKeysRec x :: sortKeysArr xs

/-- The map of `sortKeysRec` over an object's field values. -/
def sortKeysFields : List (String × Json) → List (String × Json)
  | [] => []
  | (k, v) :: rest => (k, sortKeysRec v) :: sortKeysFields rest

end

/-- Model of `json.dump(config, file, indent=indent, sort_keys=sort_keys)` on a file
opened with `open(p, "w")`: full overwrite of whatever file was at `p`.
Opening a directory for writing is `IsADirectoryError` (unreachable from
`save_config`, which checks first). -/
def json_dump (fs : FS) (p : String) (config : Json) (indent : Nat)
    (sort_keys : Bool) : Except PyErr FS :=
  match dictGet fs p with
  | some .dir => .error (.osError "IsADirectoryError")
  | _ => .ok (dictSet fs p
      (.file (if sort_keys then sortKeysRec config else config) indent))

/-- Embedding of `get_config()` (conf.py lines 127–148). -/
def get_config (fs : FS) (home : String) : Except PyErr Json :=
  let config_path := get_config_path home
  if os_path_isdir fs config_path then
    .error (.runtimeError ("Config path at '" ++ config_path ++ "' is a directory."))
  else if os_path_isfile fs config_path then
    json_load fs config_path
  else
    .ok (.obj [])

/-- Embedding of `save_config(config)` (conf.py lines 151–168). -/
def save_config (fs : FS) (home : String) (config : Json) : Except PyErr FS :=
  let config_path := get_config_path home
  if os_path_isdir fs config_path then
    .error (.runtimeError ("Config path at '" ++ config_path ++ "' is a directory."))
  else
    match setup_config_dir fs home with
    | .error e => .error e
    | .ok fs' => json_dump fs' config_path config 4 true

/-! ## Equality and well-formedness of JSON values -/

/-- Keys of a string-keyed map are pairwise distinct — an invariant every
Python dict enjoys, carried as a hypothesis by our association lists. -/
def nodupKeys {α : Type} : List (String × α) → Bool
  | [] => true
  | (k, _) :: rest => !dictHas rest k && nodupKeys rest

mutual

/-- Every object inside the value has pairwise-distinct keys (true of any
value built of Python dicts). -/
def jsonWF : Json → Bool
  | .null => true
  | .bool _ => true
  | .num _ => true
  | .str _ => true
  | .arr xs => jsonWFArr xs
  | .obj fields => nodupKeys fields && jsonWFFields fields

def jsonWFArr : List Json → Bool
  | [] => true
  | x :: xs => jsonWF x && jsonWFArr xs

def jsonWFFields : List (String × Json) → Bool
  | [] => true
  | (_, v) :: rest => jsonWF v && jsonWFFields rest

end

mutual

/-- Python `==` on JSON-compatible values ("deep-equal"): structural equality
except that objects (dicts) are compared as key→value maps, irrespective of
insertion order.  (Python's cross-type numeric equalities such as
`True == 1` are not identified; this makes the relation finer, so proving it
also proves Python equality.) -/
def pyEq : Json → Json → Bool
  | .null, .null => true
  | .bool a, .bool b => a == b
  | .num a, .num b => a == b
  | .str a, .str b => a == b
  | .arr xs, .arr ys => pyEqArr xs ys
  | .obj fs, .obj gs => fs.length == gs.length && pyEqFields fs gs
  | _, _ => false

/-- Pointwise `pyEq` on lists of equal length. -/
def pyEqArr : List Json → List Json → Bool
  | [], [] => true
  | x :: xs, y :: ys => pyEq x y && pyEqArr xs ys
  | _, _ => false

/-- Every field of the first object is present in the second with a
`pyEq`-equal value. -/
def pyEqFields : List (String × Json) → List (String × Json) → Bool
  | [], _ => true
  | (k, v) :: rest, gs =>
    (match dictGet gs k with
     | some w => pyEq v w
     | none => false) && pyEqFields rest gs

end

/-- Adjacent keys of a field list are in ascending order. -/
def keysAscending : List (String × Json) → Bool
  | [] => true
  | [_] => true
  | a :: b :: rest => decide (a.1 ≤ b.1) && keysAscending (b :: rest)

mutual

/-- Every object inside the value lists its fields in ascending key order —
what `sort_keys=True` guarantees about a serialized document. -/
def jsonKeysSorted : Json → Bool
  | .null => true
  | .bool _ => true
  | .num _ => true
  | .str _ => true
  | .arr xs => jsonKeysSortedArr xs
  | .obj fields => keysAscending fields && jsonKeysSortedFields fields

def jsonKeysSortedArr : List Json → Bool
  | [] => true
  | x :: xs => jsonKeysSorted x && jsonKeysSortedArr xs

def jsonKeysSortedFields : List (String × Json) → Bool
  | [] => true
  | (_, v) :: rest => jsonKeysSorted v && jsonKeysSortedFields rest

end

/-! ## Map lemmas -/

theorem dictGet_dictSet_self {α : Type} (d : List (String × α)) (k : String)
    (v : α) : dictGet (dictSet d k v) k = some v := by
  induction d with
  | nil => simp [dictGet, dictSet]
  | cons hd tl ih =>
    obtain ⟨k', v'⟩ := hd
    by_cases h : k' = k <;> simp [dictGet, dictSet, h, ih]

theorem dictGet_dictSet_ne {α : Type} (d : List (String × α)) (k k' : String)
    (v : α) (h : k' ≠ k) : dictGet (dictSet d k v) k' = dictGet d k' := by
  have h' : ¬ k = k' := fun hh => h hh.symm
  induction d with
  | nil => simp [dictGet, dictSet, h']
  | cons hd tl ih =>
    obtain ⟨k'', v''⟩ := hd
    by_cases h2 : k'' = k
    · subst h2
      simp [dictGet, dictSet, h']
    · simp only [dictSet, if_neg h2, dictGet]
      by_cases h3 : k'' = k' <;> simp [h3, ih]

theorem ne_nil_of_dictGet_isSome {α : Type} {d : List (String × α)}
    {k : String} (h : (dictGet d k).isSome) : d ≠ [] := by
  intro hnil
  subst hnil
  simp [dictGet] at h


/-! ## Credential manager: claims C1, C2, C3, C5 -/

/-- C1: for every config whose `oauth.google` record is absent or empty, or
is missing `refresh_token`, `client_id` or `client_secret`,
`get_saved_google_credentials` returns the null result without raising and
without any network I/O. -/
theorem getSaved_no_record_returns_none (config g : PyDict)
    (expiry : Option Nat) (now : Nat) (t : Transport)
    (hrec : getOauthGoogleRecord config = .ok g)
    (hmiss : g = [] ∨ dictHas g "refresh_token" = false
      ∨ dictHas g "client_id" = false ∨ dictHas g "client_secret" = false) :
    get_saved_google_credentials config expiry now t = (.ok none, 0) := by
  unfold get_saved_google_credentials
  rw [hrec]
  rcases hmiss with h | h | h | h
  · subst h
    simp [jsonTruthy]
  all_goals simp [h, jsonTruthy]

/-- Witness for C1 at the empty config. -/
theorem getSaved_no_record_returns_none_witness :
    get_saved_google_credentials [] none 0 (.ok ⟨.str "x", none⟩) =
      (.ok none, 0) :=
  getSaved_no_record_returns_none [] [] none 0 (.ok ⟨.str "x", none⟩) rfl
    (Or.inl rfl)

/-- C2: a config whose `oauth.google` record holds all five fields, and whose
reconstructed credential is already valid, yields exactly that credential —
every field equal to the stored string — with no network call. -/
theorem getSaved_valid_returned_as_is (config oauthDict g : PyDict)
    (r tk ci cs tu : String) (expiry : Option Nat) (now : Nat) (t : Transport)
    (hoauth : dictGet config "oauth" = some (.obj oauthDict))
    (hgoogle : dictGet oauthDict "google" = some (.obj g))
    (hr : dictGet g "refresh_token" = some (.str r))
    (htk : dictGet g "token" = some (.str tk))
    (hci : dictGet g "client_id" = some (.str ci))
    (hcs : dictGet g "client_secret" = some (.str cs))
    (htu : dictGet g "token_uri" = some (.str tu))
    (hkeys : g.all (fun p => p.1 ∈ credentialKeys) = true)
    (hnotexp : Credentials.expired ⟨some (.str tk), some (.str r),
      some (.str ci), some (.str cs), some (.str tu), expiry⟩ now = false) :
    get_saved_google_credentials config expiry now t =
      (.ok (some ⟨some (.str tk), some (.str r), some (.str ci),
        some (.str cs), some (.str tu), expiry⟩), 0) := by
  have hne : g ≠ [] := by
    intro hnil
    rw [hnil] at htk
    simp [dictGet] at htk
  have hrec : getOauthGoogleRecord config = .ok g := by
    simp only [getOauthGoogleRecord, hoauth, hgoogle]
  have hmk : credentialsFromDict g expiry =
      .ok ⟨some (.str tk), some (.str r), some (.str ci), some (.str cs),
        some (.str tu), expiry⟩ := by
    unfold credentialsFromDict
    rw [if_neg (by simp [hkeys]), if_neg (by simp [dictHas, htk])]
    simp only [hr, htk, hci, hcs, htu, Option.some_bind, pyOfJson]
  have hemp : g.isEmpty = false := by
    cases g with
    | nil => exact absurd rfl hne
    | cons a l => rfl
  unfold get_saved_google_credentials
  rw [hrec]
  simp only [jsonTruthy, dictHas, hr, htk, hci, hcs, hemp, Option.isSome_some,
    Bool.not_true, Bool.not_false, Bool.or_self, Bool.or_false, Bool.false_or,
    Bool.false_eq_true, if_false, hmk]
  simp [Credentials.valid, hnotexp]

/-- Witness for C2: the spec's scenario record with a never-expiring token. -/
theorem getSaved_valid_returned_as_is_witness :
    get_saved_google_credentials
      [("oauth", .obj [("google", .obj
        [("refresh_token", .str "r"), ("token", .str "t"),
         ("client_id", .str "c"), ("client_secret", .str "s"),
         ("token_uri", .str "https://oauth2.example/token")])])]
      none 0 (.error (.netError "no network")) =
      (.ok (some ⟨some (.str "t"), some (.str "r"), some (.str "c"),
        some (.str "s"), some (.str "https://oauth2.example/token"), none⟩),
       0) :=
  getSaved_valid_returned_as_is _ _ _ "r" "t" "c" "s"
    "https://oauth2.example/token" none 0 (.error (.netError "no network"))
    rfl rfl rfl rfl rfl rfl rfl (by decide) rfl

/-- C3: when the reconstructed credential is not valid, the function refreshes
exactly once (and only via the given transport, errors propagating with no
retry) when it is expired with a truthy refresh token, and otherwise returns
the null result with no network call. -/
theorem getSaved_invalid_refresh_or_none (config g : PyDict)
    (expiry : Option Nat) (now : Nat) (t : Transport) (c : Credentials)
    (hrec : getOauthGoogleRecord config = .ok g)
    (hr : dictHas g "refresh_token" = true)
    (hci : dictHas g "client_id" = true)
    (hcs : dictHas g "client_secret" = true)
    (hmk : credentialsFromDict g expiry = .ok c)
    (hinvalid : c.valid now = false) :
    (c.expired now = true ∧ pyTruthy c.refresh_token = true →
      get_saved_google_credentials config expiry now t =
        ((c.refresh t).map some, 1))
    ∧ (¬(c.expired now = true ∧ pyTruthy c.refresh_token = true) →
      get_saved_google_credentials config expiry now t = (.ok none, 0)) := by
  have hne : g ≠ [] := ne_nil_of_dictGet_isSome (k := "refresh_token") hr
  have hemp : g.isEmpty = false := by
    cases g with
    | nil => exact absurd rfl hne
    | cons a l => rfl
  have hmain : get_saved_google_credentials config expiry now t =
      if c.expired now && pyTruthy c.refresh_token then
        ((c.refresh t).map some, 1)
      else (.ok none, 0) := by
    unfold get_saved_google_credentials
    rw [hrec]
    simp only [jsonTruthy, hr, hci, hcs, hemp, Bool.not_true, Bool.not_false,
      Bool.or_self, Bool.or_false, Bool.false_or, Bool.false_eq_true,
      if_false, hmk]
    rw [if_pos (by simp [hinvalid])]
    split
    · cases t <;> simp [Credentials.refresh, Except.map]
    · rfl
  constructor
  · rintro ⟨h1, h2⟩
    rw [hmain, if_pos (by rw [h1, h2]; rfl)]
  · intro hnot
    rw [hmain, if_neg]
    intro hand
    rw [Bool.and_eq_true] at hand
    exact hnot hand

/-- Witness for C3, exercising the refresh branch: an expired credential with
a truthy refresh token is refreshed through the transport exactly once. -/
theorem getSaved_invalid_refresh_or_none_witness :
    get_saved_google_credentials
      [("oauth", .obj [("google", .obj
        [("refresh_token", .str "r"), ("token", .str "t"),
         ("client_id", .str "c"), ("client_secret", .str "s"),
         ("token_uri", .str "u")])])]
      (some 5) 10 (.ok ⟨.str "t2", some 99⟩) =
      (.ok (some ⟨some (.str "t2"), some (.str "r"), some (.str "c"),
        some (.str "s"), some (.str "u"), some 99⟩), 1) :=
  (getSaved_invalid_refresh_or_none
    [("oauth", .obj [("google", .obj
      [("refresh_token", .str "r"), ("token", .str "t"),
       ("client_id", .str "c"), ("client_secret", .str "s"),
       ("token_uri", .str "u")])])]
    [("refresh_token", .str "r"), ("token", .str "t"),
     ("client_id", .str "c"), ("client_secret", .str "s"),
     ("token_uri", .str "u")]
    (some 5) 10 (.ok ⟨.str "t2", some 99⟩)
    ⟨some (.str "t"), some (.str "r"), some (.str "c"), some (.str "s"),
      some (.str "u"), some 5⟩
    rfl rfl rfl rfl rfl rfl).1 ⟨rfl, rfl⟩

/-- C5 counterexample: a record holding `refresh_token`, `client_id` and
`client_secret` but lacking `"token"` passes the source's three-key guard, so
`get_saved_google_credentials` does not return the null result — credential
reconstruction raises instead (still with no network I/O). -/
theorem getSaved_missing_token_counterexample :
    get_saved_google_credentials
      [("oauth", .obj [("google", .obj
        [("refresh_token", .str "r"), ("client_id", .str "c"),
         ("client_secret", .str "s")])])]
      none 0 (.error (.netError "unreachable")) =
      (.error (.typeError "missing 1 required positional argument: 'token'"),
       0)
    ∧ get_saved_google_credentials
      [("oauth", .obj [("google", .obj
        [("refresh_token", .str "r"), ("client_id", .str "c"),
         ("client_secret", .str "s")])])]
      none 0 (.error (.netError "unreachable")) ≠ (.ok none, 0) :=
  ⟨rfl, fun h => Except.noConfusion (congrArg Prod.fst h)⟩

/-- C5 (amended): a record with the three checked fields present but no
`"token"` field reaches credential reconstruction, which raises the missing
`token`-argument `TypeError`; no network I/O happens, and the null result is
not returned. -/
theorem getSaved_missing_token_raises (config g : PyDict)
    (expiry : Option Nat) (now : Nat) (t : Transport)
    (hrec : getOauthGoogleRecord config = .ok g)
    (hr : dictHas g "refresh_token" = true)
    (hci : dictHas g "client_id" = true)
    (hcs : dictHas g "client_secret" = true)
    (hkeys : g.all (fun p => p.1 ∈ credentialKeys) = true)
    (htk : dictHas g "token" = false) :
    get_saved_google_credentials config expiry now t =
      (.error (.typeError "missing 1 required positional argument: 'token'"),
       0) := by
  have hne : g ≠ [] := ne_nil_of_dictGet_isSome (k := "refresh_token") hr
  have hemp : g.isEmpty = false := by
    cases g with
    | nil => exact absurd rfl hne
    | cons a l => rfl
  have hmk : credentialsFromDict g expiry =
      .error (.typeError "missing 1 required positional argument: 'token'") := by
    unfold credentialsFromDict
    rw [if_neg (by simp [hkeys]), if_pos (by simp [htk])]
  unfold get_saved_google_credentials
  rw [hrec]
  simp only [jsonTruthy, hr, hci, hcs, hemp, Bool.not_true, Bool.not_false,
    Bool.or_self, Bool.or_false, Bool.false_or, Bool.false_eq_true, if_false,
    hmk]

/-- Witness for the amended C5. -/
theorem getSaved_missing_token_raises_witness :
    get_saved_google_credentials
      [("oauth", .obj [("google", .obj
        [("refresh_token", .str "r"), ("client_id", .str "c"),
         ("client_secret", .str "s")])])]
      (some 3) 7 (.ok ⟨.str "t2", none⟩) =
      (.error (.typeError "missing 1 required positional argument: 'token'"),
       0) :=
  getSaved_missing_token_raises
    [("oauth", .obj [("google", .obj
      [("refresh_token", .str "r"), ("client_id", .str "c"),
       ("client_secret", .str "s")])])]
    [("refresh_token", .str "r"), ("client_id", .str "c"),
     ("client_secret", .str "s")]
    (some 3) 7 (.ok ⟨.str "t2", none⟩) rfl rfl rfl rfl (by decide) rfl

/-! ## Credential stashing: claims C8 and C10 -/

/-- C8: `stash_google_credentials` stores exactly the five-field record built
from the credential under `config["oauth"]["google"]` (overwriting any
previous record), touching no filesystem state, and returns the mutated
config.  The config's `oauth` entry, when present, is a mapping (the spec's
Config data model). -/
theorem stash_sets_record (config : PyDict) (c : Credentials)
    (h : dictGet config "oauth" = none
      ∨ ∃ o, dictGet config "oauth" = some (.obj o)) :
    ∃ cfg', stash_google_credentials config c = .ok cfg' ∧
      ∃ o', dictGet cfg' "oauth" = some (.obj o') ∧
        dictGet o' "google" = some (.obj
          [("refresh_token", c.refresh_token.getD .null),
           ("token", c.token.getD .null),
           ("client_id", c.client_id.getD .null),
           ("client_secret", c.client_secret.getD .null),
           ("token_uri", c.token_uri.getD .null)]) := by
  rcases h with h | ⟨o, h⟩
  · refine ⟨dictSet (dictSet config "oauth" (.obj [])) "oauth"
      (.obj (dictSet [] "google" (.obj
        [("refresh_token", c.refresh_token.getD .null),
         ("token", c.token.getD .null),
         ("client_id", c.client_id.getD .null),
         ("client_secret", c.client_secret.getD .null),
         ("token_uri", c.token_uri.getD .null)]))), ?_,
      _, dictGet_dictSet_self _ _ _, dictGet_dictSet_self _ _ _⟩
    unfold stash_google_credentials
    simp only [dictHas, h, Option.isSome_none, Bool.not_false, if_true,
      dictGet_dictSet_self]
  · refine ⟨dictSet config "oauth"
      (.obj (dictSet o "google" (.obj
        [("refresh_token", c.refresh_token.getD .null),
         ("token", c.token.getD .null),
         ("client_id", c.client_id.getD .null),
         ("client_secret", c.client_secret.getD .null),
         ("token_uri", c.token_uri.getD .null)]))), ?_,
      _, dictGet_dictSet_self _ _ _, dictGet_dictSet_self _ _ _⟩
    unfold stash_google_credentials
    simp only [dictHas, h, Option.isSome_some, Bool.not_true,
      Bool.false_eq_true, if_false]

/-- Witness for C8 at a config with an existing `oauth` mapping. -/
theorem stash_sets_record_witness :
    ∃ cfg', stash_google_credentials
      [("a", .num 1), ("oauth", .obj [("x", .null)])]
      ⟨some (.str "t"), some (.str "r"), some (.str "c"), some (.str "s"),
        some (.str "u"), none⟩ = .ok cfg' ∧
      ∃ o', dictGet cfg' "oauth" = some (.obj o') ∧
        dictGet o' "google" = some (.obj
          [("refresh_token", .str "r"), ("token", .str "t"),
           ("client_id", .str "c"), ("client_secret", .str "s"),
           ("token_uri", .str "u")]) :=
  stash_sets_record [("a", .num 1), ("oauth", .obj [("x", .null)])]
    ⟨some (.str "t"), some (.str "r"), some (.str "c"), some (.str "s"),
      some (.str "u"), none⟩
    (Or.inr ⟨[("x", .null)], rfl⟩)

/-- C10 (frame): whenever `stash_google_credentials` succeeds, every
top-level key other than `"oauth"` is unchanged, and when `config["oauth"]`
already was a mapping, every key under it other than `"google"` is
unchanged. -/
theorem stash_frame (config cfg' : PyDict) (c : Credentials)
    (hok : stash_google_credentials config c = .ok cfg') :
    (∀ k, k ≠ "oauth" → dictGet cfg' k = dictGet config k) ∧
    (∀ o, dictGet config "oauth" = some (.obj o) →
      ∃ o', dictGet cfg' "oauth" = some (.obj o') ∧
        ∀ k, k ≠ "google" → dictGet o' k = dictGet o k) := by
  rcases hv : dictGet config "oauth" with _ | v
  · simp only [stash_google_credentials, dictHas, hv, Option.isSome_none,
      Bool.not_false, if_true, dictGet_dictSet_self, Except.ok.injEq] at hok
    subst hok
    refine ⟨fun k hk => ?_, fun o ho => ?_⟩
    · rw [dictGet_dictSet_ne _ _ _ _ hk, dictGet_dictSet_ne _ _ _ _ hk]
    · exact Option.noConfusion ho
  · rcases v with _ | b | n | s | xs | o0 <;>
      simp only [stash_google_credentials, dictHas, hv, Option.isSome_some,
        Bool.not_true, Bool.false_eq_true, if_false, Except.ok.injEq] at hok
    case obj =>
      subst hok
      refine ⟨fun k hk => dictGet_dictSet_ne _ _ _ _ hk, fun o ho => ?_⟩
      rw [Option.some.injEq, Json.obj.injEq] at ho
      subst ho
      exact ⟨_, dictGet_dictSet_self _ _ _,
        fun k hk => dictGet_dictSet_ne _ _ _ _ hk⟩
    all_goals exact absurd hok (by simp)

/-- Witness for C10: the untouched top-level key `"a"` keeps its value. -/
theorem stash_frame_witness :
    dictGet (dictSet ([("a", Json.num 1), ("oauth", Json.obj [("x", Json.null)])] : PyDict)
      "oauth" (Json.obj (dictSet ([("x", Json.null)] : PyDict) "google" (Json.obj
        [("refresh_token", Json.str "r"), ("token", Json.str "t"),
         ("client_id", Json.str "c"), ("client_secret", Json.str "s"),
         ("token_uri", Json.str "u")])))) "a" =
      dictGet ([("a", Json.num 1), ("oauth", Json.obj [("x", Json.null)])] : PyDict) "a" :=
  (stash_frame [("a", Json.num 1), ("oauth", Json.obj [("x", Json.null)])]
    (dictSet ([("a", Json.num 1), ("oauth", Json.obj [("x", Json.null)])] : PyDict)
      "oauth" (Json.obj (dictSet ([("x", Json.null)] : PyDict) "google" (Json.obj
        [("refresh_token", Json.str "r"), ("token", Json.str "t"),
         ("client_id", Json.str "c"), ("client_secret", Json.str "s"),
         ("token_uri", Json.str "u")]))))
    ⟨some (.str "t"), some (.str "r"), some (.str "c"), some (.str "s"),
      some (.str "u"), none⟩ rfl).1 "a" (by decide)

/-! ## Config Store: claims C9, C6, C7 -/

theorem expanduser_config_dir (home : String) :
    os_path_expanduser home CONFIG_DIR =
      home ++ "/.config/gcal-discord-poster" := rfl

theorem config_dir_ne_empty (home : String) :
    home ++ "/.config/gcal-discord-poster" ≠ "" := by
  intro h
  have hlen := congrArg String.length h
  rw [String.length_append] at hlen
  have h28 : ("/.config/gcal-discord-poster" : String).length = 28 := rfl
  have h0 : ("" : String).length = 0 := rfl
  rw [h28, h0] at hlen
  omega

theorem pyEndsWith_config_dir_slash (home : String) :
    pyEndsWith (home ++ "/.config/gcal-discord-poster") "/" = false := by
  unfold pyEndsWith
  rw [String.data_append, List.reverse_append]
  have hrev : ("/.config/gcal-discord-poster" : String).data.reverse =
      'r' :: ("etsop-drocsid-lacg/gifnoc./" : String).data := by decide
  have hslash : ("/" : String).data.reverse = ['/'] := by decide
  rw [hrev, hslash, List.cons_append, List.isPrefixOf_cons₂]
  simp

theorem get_config_path_eq (home : String) :
    get_config_path home =
      home ++ "/.config/gcal-discord-poster/config.json" := by
  unfold get_config_path os_path_join
  rw [expanduser_config_dir]
  rw [if_neg (by decide)]
  rw [if_neg (by simp [config_dir_ne_empty home, pyEndsWith_config_dir_slash home])]
  rw [String.append_assoc, String.append_assoc]
  rfl

/-- C9: `setup_config_dir` is idempotent — when the config directory is
absent one call creates it and a second call succeeds without change — and
it raises its `RuntimeError` exactly when the path exists as a non-directory
(a file). -/
theorem setup_config_dir_idempotent (fs : FS) (home : String) :
    (dictGet fs (os_path_expanduser home CONFIG_DIR) = none →
      ∃ fs', setup_config_dir fs home = .ok fs' ∧
        os_path_isdir fs' (os_path_expanduser home CONFIG_DIR) = true ∧
        setup_config_dir fs' home = .ok fs')
    ∧ ((∃ doc i, dictGet fs (os_path_expanduser home CONFIG_DIR) =
          some (.file doc i)) ↔
        ∃ msg, setup_config_dir fs home = .error (.runtimeError msg)) := by
  constructor
  · intro h
    refine ⟨dictSet fs (os_path_expanduser home CONFIG_DIR) .dir, ?_, ?_, ?_⟩
    · simp only [setup_config_dir, os_path_exists, os_makedirs, h,
        Option.isSome_none, Bool.not_false, if_true, Bool.false_eq_true,
        if_false]
    · simp only [os_path_isdir, dictGet_dictSet_self]
    · simp only [setup_config_dir, os_path_exists, os_path_isdir,
        dictGet_dictSet_self, Option.isSome_some, Bool.not_true,
        Bool.false_eq_true, if_false]
  · constructor
    · rintro ⟨doc, i, h⟩
      refine ⟨"Unable to setup config dir at '" ++ CONFIG_DIR ++ "'", ?_⟩
      simp only [setup_config_dir, os_path_exists, os_path_isdir, h,
        Option.isSome_some, Bool.not_true, Bool.false_eq_true, if_false,
        Bool.not_false]
      rfl
    · rintro ⟨msg, h⟩
      rcases hv : dictGet fs (os_path_expanduser home CONFIG_DIR)
        with _ | node
      · simp only [setup_config_dir, os_path_exists, os_makedirs, hv,
          Option.isSome_none, Bool.not_false, if_true] at h
        exact absurd h (by simp)
      · rcases node with ⟨doc, i⟩ | _
        · exact ⟨doc, i, rfl⟩
        · simp only [setup_config_dir, os_path_exists, os_path_isdir, hv,
            Option.isSome_some, Bool.not_true, Bool.false_eq_true,
            if_false] at h
          exact absurd h (by simp)

/-- Witness for C9: from an empty filesystem one call creates the directory
and the second call is a no-op success. -/
theorem setup_config_dir_idempotent_witness :
    ∃ fs', setup_config_dir [] "/home/u" = .ok fs' ∧
      os_path_isdir fs' (os_path_expanduser "/home/u" CONFIG_DIR) = true ∧
      setup_config_dir fs' "/home/u" = .ok fs' :=
  (setup_config_dir_idempotent [] "/home/u").1 rfl

/-- C6: when the config path is occupied by a directory, both `get_config`
and `save_config` fail with the descriptive `RuntimeError`, and when nothing
exists at the config path `get_config` returns the empty mapping. -/
theorem config_path_directory_conflict (fs : FS) (home : String)
    (config : Json) :
    (dictGet fs (get_config_path home) = some .dir →
      get_config fs home = .error (.runtimeError
        ("Config path at '" ++ get_config_path home ++ "' is a directory."))
      ∧ save_config fs home config = .error (.runtimeError
        ("Config path at '" ++ get_config_path home ++ "' is a directory.")))
    ∧ (dictGet fs (get_config_path home) = none →
      get_config fs home = .ok (.obj [])) := by
  constructor
  · intro h
    constructor
    · simp only [get_config, os_path_isdir, h, if_true]
    · simp only [save_config, os_path_isdir, h, if_true]
  · intro h
    simp only [get_config, os_path_isdir, os_path_isfile, h, Bool.false_eq_true,
      if_false]

/-- Witness for C6: an empty filesystem (no file at the config path) and a
filesystem with a directory at the config path. -/
theorem config_path_directory_conflict_witness :
    get_config [] "/home/u" = .ok (.obj []) ∧
    get_config [(get_config_path "/home/u", FSNode.dir)] "/home/u" =
      .error (.runtimeError ("Config path at '" ++ get_config_path "/home/u"
        ++ "' is a directory.")) :=
  ⟨(config_path_directory_conflict [] "/home/u" .null).2 rfl,
   ((config_path_directory_conflict [(get_config_path "/home/u", FSNode.dir)]
      "/home/u" .null).1 (by rw [dictGet]; simp)).1⟩

theorem keysAscending_of_pairwise (l : List (String × Json))
    (h : l.Pairwise (fun a b => a.1 ≤ b.1)) : keysAscending l = true := by
  induction l with
  | nil => rfl
  | cons a t iht =>
    cases t with
    | nil => rfl
    | cons b r =>
      rw [List.pairwise_cons] at h
      rw [keysAscending, Bool.and_eq_true, decide_eq_true_eq]
      exact ⟨h.1 b (by simp), iht h.2⟩

theorem mem_sortKeysFields {p : String × Json} {fields : List (String × Json)}
    (h : p ∈ sortKeysFields fields) :
    ∃ k v, p = (k, sortKeysRec v) ∧ (k, v) ∈ fields := by
  induction fields with
  | nil => simp [sortKeysFields] at h
  | cons hd tl ih =>
    obtain ⟨k, v⟩ := hd
    rw [sortKeysFields] at h
    rcases List.mem_cons.mp h with h | h
    · exact ⟨k, v, h, List.mem_cons_self _ _⟩
    · obtain ⟨k', v', hp, hm⟩ := ih h
      exact ⟨k', v', hp, List.mem_cons_of_mem _ hm⟩

theorem jsonKeysSortedFields_of (l : List (String × Json))
    (h : ∀ p ∈ l, jsonKeysSorted p.2 = true) :
    jsonKeysSortedFields l = true := by
  induction l with
  | nil => rfl
  | cons hd tl ih =>
    obtain ⟨k, v⟩ := hd
    rw [jsonKeysSortedFields, Bool.and_eq_true]
    exact ⟨h (k, v) (by simp), ih fun p hp => h p (by simp [hp])⟩

theorem jsonKeysSortedArr_of (xs : List Json)
    (h : ∀ x ∈ xs, jsonKeysSorted (sortKeysRec x) = true) :
    jsonKeysSortedArr (sortKeysArr xs) = true := by
  induction xs with
  | nil => rfl
  | cons x t ih =>
    rw [sortKeysArr, jsonKeysSortedArr, Bool.and_eq_true]
    exact ⟨h x (by simp), ih fun y hy => h y (by simp [hy])⟩

theorem jsonKeysSorted_sortKeysRec_aux :
    ∀ (n : Nat) (c : Json), sizeOf c ≤ n →
      jsonKeysSorted (sortKeysRec c) = true := by
  intro n
  induction n with
  | zero =>
    intro c hc
    cases c <;> simp at hc
  | succ n ih =>
    intro c hc
    cases c with
    | null => rfl
    | bool b => rfl
    | num m => rfl
    | str s => rfl
    | arr xs =>
      have hx : ∀ x ∈ xs, jsonKeysSorted (sortKeysRec x) = true := by
        intro x hxm
        apply ih
        have h1 := List.sizeOf_lt_of_mem hxm
        have h2 : sizeOf (Json.arr xs) = 1 + sizeOf xs := by simp
        omega
      rw [sortKeysRec, jsonKeysSorted]
      exact jsonKeysSortedArr_of xs hx
    | obj fields =>
      have hv : ∀ k v, (k, v) ∈ fields →
          jsonKeysSorted (sortKeysRec v) = true := by
        intro k v hm
        apply ih
        have h1 := List.sizeOf_lt_of_mem hm
        have h2 : sizeOf (k, v) = 1 + sizeOf k + sizeOf v := by simp
        have h3 : sizeOf (Json.obj fields) = 1 + sizeOf fields := by simp
        omega
      rw [sortKeysRec, jsonKeysSorted, Bool.and_eq_true]
      constructor
      · apply keysAscending_of_pairwise
        refine (List.sorted_mergeSort ?_ ?_ (sortKeysFields fields)).imp ?_
        · intro a b c hab hbc
          simp only [decide_eq_true_eq] at *
          exact le_trans hab hbc
        · intro a b
          rw [Bool.or_eq_true, decide_eq_true_eq, decide_eq_true_eq]
          exact le_total a.1 b.1
        · intro a b hab
          exact of_decide_eq_true hab
      · apply jsonKeysSortedFields_of
        intro p hp
        obtain ⟨k, v, hpv, hm⟩ := mem_sortKeysFields (List.mem_mergeSort.mp hp)
        rw [hpv]
        exact hv k v hm

theorem jsonKeysSorted_sortKeysRec (c : Json) :
    jsonKeysSorted (sortKeysRec c) = true :=
  jsonKeysSorted_sortKeysRec_aux (sizeOf c) c le_rfl

theorem os_path_isdir_eq_false {fs : FS} {p : String}
    (h : dictGet fs p ≠ some .dir) : os_path_isdir fs p = false := by
  unfold os_path_isdir
  rcases hv : dictGet fs p with _ | node
  · rfl
  · rcases node with ⟨doc, j⟩ | _
    · rfl
    · exact absurd hv h

theorem json_dump_notdir (fs : FS) (p : String) (config : Json) (i : Nat)
    (h : dictGet fs p ≠ some .dir) :
    json_dump fs p config i true =
      .ok (dictSet fs p (.file (sortKeysRec config) i)) := by
  unfold json_dump
  rcases hv : dictGet fs p with _ | node
  · rfl
  · rcases node with ⟨doc, j⟩ | _
    · rfl
    · exact absurd hv h

theorem setup_config_dir_ok (fs : FS) (home : String)
    (hdir : dictGet fs (os_path_expanduser home CONFIG_DIR) = none
      ∨ dictGet fs (os_path_expanduser home CONFIG_DIR) = some .dir) :
    ∃ fs₁, setup_config_dir fs home = .ok fs₁ ∧
      dictGet fs₁ (os_path_expanduser home CONFIG_DIR) = some .dir ∧
      ∀ q, q ≠ os_path_expanduser home CONFIG_DIR →
        dictGet fs₁ q = dictGet fs q := by
  rcases hdir with h | h
  · exact ⟨dictSet fs _ .dir,
      by simp only [setup_config_dir, os_path_exists, os_makedirs, h,
        Option.isSome_none, Bool.not_false, if_true, Bool.false_eq_true,
        if_false],
      dictGet_dictSet_self _ _ _,
      fun q hq => dictGet_dictSet_ne _ _ _ _ hq⟩
  · exact ⟨fs,
      by simp only [setup_config_dir, os_path_exists, os_path_isdir, h,
        Option.isSome_some, Bool.not_true, Bool.not_false, Bool.false_eq_true,
        if_false],
      h, fun q hq => rfl⟩

theorem config_dir_ne_config_path (home : String) :
    os_path_expanduser home CONFIG_DIR ≠ get_config_path home := by
  rw [expanduser_config_dir, get_config_path_eq]
  intro hcontra
  have hlen := congrArg String.length hcontra
  rw [String.length_append, String.length_append] at hlen
  have h1 : ("/.config/gcal-discord-poster" : String).length = 28 := rfl
  have h2 : ("/.config/gcal-discord-poster/config.json" : String).length =
    40 := rfl
  rw [h1, h2] at hlen
  omega

/-- C7: `save_config` first ensures the config directory exists, then writes
the serialized config — keys recursively sorted, 4-space indent — to the
fixed path `<expanded home>/.config/gcal-discord-poster/config.json`,
regardless of any previous file contents at that path (full overwrite). -/
theorem save_config_writes_sorted_json (fs : FS) (home : String)
    (config : Json)
    (hnd : dictGet fs (get_config_path home) ≠ some .dir)
    (hdir : dictGet fs (os_path_expanduser home CONFIG_DIR) = none
      ∨ dictGet fs (os_path_expanduser home CONFIG_DIR) = some .dir) :
    get_config_path home = home ++ "/.config/gcal-discord-poster/config.json"
    ∧ (∃ fs', save_config fs home config = .ok fs' ∧
        os_path_isdir fs' (os_path_expanduser home CONFIG_DIR) = true ∧
        dictGet fs' (get_config_path home) =
          some (.file (sortKeysRec config) 4))
    ∧ jsonKeysSorted (sortKeysRec config) = true := by
  have hne := config_dir_ne_config_path home
  obtain ⟨fs₁, hsetup, hd1, hframe⟩ := setup_config_dir_ok fs home hdir
  have hp1 : dictGet fs₁ (get_config_path home) ≠ some .dir := by
    rw [hframe _ (fun hq => hne hq.symm)]
    exact hnd
  refine ⟨get_config_path_eq home,
    ⟨dictSet fs₁ (get_config_path home) (.file (sortKeysRec config) 4),
      ?_, ?_, dictGet_dictSet_self _ _ _⟩,
    jsonKeysSorted_sortKeysRec config⟩
  · simp only [save_config, os_path_isdir_eq_false hnd, Bool.false_eq_true,
      if_false, hsetup]
    exact json_dump_notdir fs₁ _ config 4 hp1
  · simp only [os_path_isdir, dictGet_dictSet_ne _ _ _ _ hne, hd1]

/-- Witness for C7 on the empty filesystem with an unsorted two-key config. -/
theorem save_config_writes_sorted_json_witness :
    get_config_path "/h" = "/h" ++ "/.config/gcal-discord-poster/config.json"
    ∧ (∃ fs', save_config [] "/h" (.obj [("b", .num 2), ("a", .num 1)]) =
        .ok fs' ∧
        os_path_isdir fs' (os_path_expanduser "/h" CONFIG_DIR) = true ∧
        dictGet fs' (get_config_path "/h") =
          some (.file (sortKeysRec (.obj [("b", .num 2), ("a", .num 1)])) 4))
    ∧ jsonKeysSorted (sortKeysRec (.obj [("b", .num 2), ("a", .num 1)]))
      = true :=
  save_config_writes_sorted_json [] "/h" (.obj [("b", .num 2), ("a", .num 1)])
    (by simp [dictGet]) (Or.inl rfl)

theorem dictHas_of_mem {α : Type} {d : List (String × α)} {k : String}
    {v : α} (h : (k, v) ∈ d) : dictHas d k = true := by
  induction d with
  | nil => simp at h
  | cons hd tl ih =>
    obtain ⟨k', v'⟩ := hd
    by_cases hk : k' = k
    · simp [dictHas, dictGet, hk]
    · rcases List.mem_cons.mp h with h | h
      · rw [Prod.mk.injEq] at h
        exact absurd h.1.symm hk
      · simp only [dictHas, dictGet, if_neg hk]
        exact ih h

theorem dictGet_of_mem_nodup {d : List (String × Json)} {k : String}
    {v : Json} (hmem : (k, v) ∈ d) (hnd : nodupKeys d = true) :
    dictGet d k = some v := by
  induction d with
  | nil => simp at hmem
  | cons hd tl ih =>
    obtain ⟨k', v'⟩ := hd
    rw [nodupKeys, Bool.and_eq_true, Bool.not_eq_true'] at hnd
    rcases List.mem_cons.mp hmem with h | h
    · rw [Prod.mk.injEq] at h
      rw [dictGet, if_pos h.1.symm, h.2]
    · have hk : k' ≠ k := by
        intro hkk
        subst hkk
        rw [dictHas_of_mem h] at hnd
        exact Bool.noConfusion hnd.1
      rw [dictGet, if_neg hk]
      exact ih h hnd.2

theorem pyEqFields_of_pointwise (l gs : List (String × Json))
    (h : ∀ p ∈ l, ∃ w, dictGet gs p.1 = some w ∧ pyEq p.2 w = true) :
    pyEqFields l gs = true := by
  induction l with
  | nil => rfl
  | cons hd tl ih =>
    obtain ⟨k, v⟩ := hd
    obtain ⟨w, hw, hpe⟩ := h (k, v) (by simp)
    rw [pyEqFields, hw, Bool.and_eq_true]
    exact ⟨hpe, ih fun p hp => h p (by simp [hp])⟩

theorem length_sortKeysFields (fields : List (String × Json)) :
    (sortKeysFields fields).length = fields.length := by
  induction fields with
  | nil => rfl
  | cons hd tl ih =>
    obtain ⟨k, v⟩ := hd
    rw [sortKeysFields, List.length_cons, List.length_cons, ih]

theorem jsonWF_of_mem_arr {xs : List Json} {x : Json} (hm : x ∈ xs)
    (h : jsonWFArr xs = true) : jsonWF x = true := by
  induction xs with
  | nil => simp at hm
  | cons hd tl ih =>
    rw [jsonWFArr, Bool.and_eq_true] at h
    rcases List.mem_cons.mp hm with hm | hm
    · rw [hm]
      exact h.1
    · exact ih hm h.2

theorem jsonWF_of_mem_fields {fields : List (String × Json)} {k : String}
    {v : Json} (hm : (k, v) ∈ fields) (h : jsonWFFields fields = true) :
    jsonWF v = true := by
  induction fields with
  | nil => simp at hm
  | cons hd tl ih =>
    obtain ⟨k', v'⟩ := hd
    rw [jsonWFFields, Bool.and_eq_true] at h
    rcases List.mem_cons.mp hm with hm | hm
    · rw [Prod.mk.injEq] at hm
      rw [hm.2]
      exact h.1
    · exact ih hm h.2

theorem pyEq_sortKeysRec_aux :
    ∀ (n : Nat) (c : Json), sizeOf c ≤ n → jsonWF c = true →
      pyEq (sortKeysRec c) c = true := by
  intro n
  induction n with
  | zero =>
    intro c hc
    cases c <;> simp at hc
  | succ n ih =>
    intro c hc hwf
    cases c with
    | null => rfl
    | bool b => simp [sortKeysRec, pyEq]
    | num m => simp [sortKeysRec, pyEq]
    | str s => simp [sortKeysRec, pyEq]
    | arr xs =>
      rw [jsonWF] at hwf
      have hsz : ∀ x ∈ xs, sizeOf x ≤ n := by
        intro x hxm
        have h1 := List.sizeOf_lt_of_mem hxm
        have h2 : sizeOf (Json.arr xs) = 1 + sizeOf xs := by simp
        omega
      rw [sortKeysRec, pyEq]
      clear hc
      induction xs with
      | nil => rfl
      | cons x t iht =>
        rw [jsonWFArr, Bool.and_eq_true] at hwf
        rw [sortKeysArr, pyEqArr, Bool.and_eq_true]
        exact ⟨ih x (hsz x (by simp)) hwf.1,
          iht hwf.2 fun y hy => hsz y (by simp [hy])⟩
    | obj fields =>
      rw [jsonWF, Bool.and_eq_true] at hwf
      have hsz : ∀ k v, (k, v) ∈ fields → sizeOf v ≤ n := by
        intro k v hm
        have h1 := List.sizeOf_lt_of_mem hm
        have h2 : sizeOf (k, v) = 1 + sizeOf k + sizeOf v := by simp
        have h3 : sizeOf (Json.obj fields) = 1 + sizeOf fields := by simp
        omega
      rw [sortKeysRec, pyEq, Bool.and_eq_true]
      constructor
      · rw [List.length_mergeSort, length_sortKeysFields]
        simp
      · apply pyEqFields_of_pointwise
        intro p hp
        obtain ⟨k, v, hpv, hm⟩ :=
          mem_sortKeysFields (List.mem_mergeSort.mp hp)
        subst hpv
        exact ⟨v, dictGet_of_mem_nodup hm hwf.1,
          ih v (hsz k v hm) (jsonWF_of_mem_fields hm hwf.2)⟩

theorem pyEq_sortKeysRec (c : Json) (h : jsonWF c = true) :
    pyEq (sortKeysRec c) c = true :=
  pyEq_sortKeysRec_aux (sizeOf c) c le_rfl h

/-- C4: round-trip — `save_config(c)` followed by `get_config()` yields a
mapping deep-equal (Python `==`) to `c`, for any JSON document whose dicts
have (as Python guarantees) pairwise-distinct keys, on any filesystem where
the write can succeed. -/
theorem save_then_get_config_roundtrip (fs : FS) (home : String)
    (config : Json)
    (hnd : dictGet fs (get_config_path home) ≠ some .dir)
    (hdir : dictGet fs (os_path_expanduser home CONFIG_DIR) = none
      ∨ dictGet fs (os_path_expanduser home CONFIG_DIR) = some .dir)
    (hwf : jsonWF config = true) :
    ∃ fs', save_config fs home config = .ok fs' ∧
      get_config fs' home = .ok (sortKeysRec config) ∧
      pyEq (sortKeysRec config) config = true := by
  have hne := config_dir_ne_config_path home
  obtain ⟨fs₁, hsetup, hd1, hframe⟩ := setup_config_dir_ok fs home hdir
  have hp1 : dictGet fs₁ (get_config_path home) ≠ some .dir := by
    rw [hframe _ (fun hq => hne hq.symm)]
    exact hnd
  refine ⟨dictSet fs₁ (get_config_path home) (.file (sortKeysRec config) 4),
    ?_, ?_, pyEq_sortKeysRec config hwf⟩
  · simp only [save_config, os_path_isdir_eq_false hnd, Bool.false_eq_true,
      if_false, hsetup]
    exact json_dump_notdir fs₁ _ config 4 hp1
  · simp only [get_config, os_path_isdir, os_path_isfile, json_load,
      dictGet_dictSet_self, Bool.false_eq_true, if_false, if_true]

/-- Witness for C4: saving a nested, unsorted config on the empty filesystem
and reading it back. -/
theorem save_then_get_config_roundtrip_witness :
    ∃ fs', save_config [] "/h"
        (.obj [("b", .arr [.num 2, .null]),
               ("a", .obj [("y", .bool true), ("x", .str "v")])]) = .ok fs' ∧
      get_config fs' "/h" = .ok (sortKeysRec
        (.obj [("b", .arr [.num 2, .null]),
               ("a", .obj [("y", .bool true), ("x", .str "v")])])) ∧
      pyEq (sortKeysRec
        (.obj [("b", .arr [.num 2, .null]),
               ("a", .obj [("y", .bool true), ("x", .str "v")])]))
        (.obj [("b", .arr [.num 2, .null]),
               ("a", .obj [("y", .bool true), ("x", .str "v")])]) = true :=
  save_then_get_config_roundtrip [] "/h"
    (.obj [("b", .arr [.num 2, .null]),
           ("a", .obj [("y", .bool true), ("x", .str "v")])])
    (by simp [dictGet]) (Or.inl rfl) rfl
